import Mathlib

/-!
Verification of the todo tool layer (`mdt_agent/tools.py`): the date-shortcut
resolver and the `TodoTools` client operations (create, update, mark-complete,
filtered retrieval), embedded shallowly.  Python `datetime` instants are
represented by their proleptic-Gregorian ordinal day together with the second
of the day; HTTP calls are represented by response oracles, and the transport
error behaviour follows the spec's stated contract for the external library
(any non-2xx status aborts the call with that status).
-/

namespace MdtAgent

/-- A todo record as served by the remote API (spec §3). -/
structure Todo where
  id : String
  text : String
  dueDate : Option String
  tags : List String
  completed : Bool
deriving DecidableEq, Repr

/-- An HTTP response: a status code and a parsed JSON body. -/
structure HttpResponse (α : Type) where
  status : Nat
  body : α
deriving DecidableEq, Repr

/-- Whether a status code is a success (2xx) status. -/
def is2xx (s : Nat) : Bool := decide (200 ≤ s ∧ s < 300)

/-- Modelled from the spec: the external HTTP library's
`Response.raise_for_status` as the spec pins it down (§4.2, §7): a non-2xx
status aborts the call with that status as the error, a 2xx status delivers
the parsed body. -/
def raise_for_status {α : Type} (r : HttpResponse α) : Except Nat α :=
  if is2xx r.status then .ok r.body else .error r.status

/-- A Python `datetime` instant: `day` is the proleptic Gregorian ordinal
(`date.toordinal()`, `0001-01-01` is ordinal 1) and `sod` the second within
the day (`hour*3600 + minute*60 + second`). -/
structure PyDateTime where
  day : Nat
  sod : Nat
deriving DecidableEq, Repr

/-- `datetime.weekday()`: Monday is 0, Sunday is 6.  Ordinal 1 (0001-01-01)
is a Monday, so the weekday of ordinal `n` is `(n + 6) % 7`. -/
def weekday (d : PyDateTime) : Nat := (d.day + 6) % 7

/-- `datetime(now.year, now.month, now.day, 23, 59, 59)`: same date, second
of day `23*3600 + 59*60 + 59 = 86399`. -/
def today_end (now : PyDateTime) : PyDateTime := ⟨now.day, 86399⟩

/-- `dt + timedelta(days=k)`. -/
def addDays (d : PyDateTime) (k : Nat) : PyDateTime := ⟨d.day + k, d.sod⟩

/-- Civil date (year, month, day) of a proleptic Gregorian ordinal, the
calendar arithmetic underlying `datetime.isoformat`.  `ord + 305` is the
number of days since 0000-03-01; era/year-of-era/day-of-year then recover the
civil components (Gregorian rules: leap every 4th year, except centuries,
except every 400th). -/
def civilFromOrdinal (ord : Nat) : Nat × Nat × Nat :=
  let z := ord + 305
  let era := z / 146097
  let doe := z % 146097
  let yoe := (doe - doe / 1460 + doe / 36524 - doe / 146096) / 365
  let y := yoe + era * 400
  let doy := doe - (365 * yoe + yoe / 4 - yoe / 100)
  let mp := (5 * doy + 2) / 153
  let d := doy - (153 * mp + 2) / 5 + 1
  let m := if mp < 10 then mp + 3 else mp - 9
  (if m ≤ 2 then y + 1 else y, m, d)

/-- Zero-pad a number to two digits (the `MM`, `DD`, `HH`, `MM`, `SS` fields
of an ISO-8601 timestamp). -/
def two (n : Nat) : String := if n < 10 then "0" ++ toString n else toString n

/-- Zero-pad a number to four digits (the `YYYY` field). -/
def four (n : Nat) : String :=
  if n < 10 then "000" ++ toString n
  else if n < 100 then "00" ++ toString n
  else if n < 1000 then "0" ++ toString n
  else toString n

/-- The `YYYY-MM-DD` part of `isoformat` for an ordinal day. -/
def dateStr (ord : Nat) : String :=
  four (civilFromOrdinal ord).1 ++ "-" ++ two (civilFromOrdinal ord).2.1 ++ "-" ++
    two (civilFromOrdinal ord).2.2

/-- The `HH:MM:SS` part of `isoformat` for a second of the day. -/
def timeStr (sod : Nat) : String :=
  two (sod / 3600) ++ ":" ++ two (sod % 3600 / 60) ++ ":" ++ two (sod % 60)

/-- `datetime.isoformat()` for a whole-second instant: `YYYY-MM-DDTHH:MM:SS`. -/
def isoformat (d : PyDateTime) : String := dateStr d.day ++ "T" ++ timeStr d.sod

/-- `TodoTools._resolve_due_shortcut`, at the instant level: the `datetime`
value each branch computes before calling `.isoformat()`. -/
def resolveDueDt (now : PyDateTime) (shortcut : String) : Option PyDateTime :=
  if shortcut = "today" then some (today_end now)
  else if shortcut = "tomorrow" then some (addDays (today_end now) 1)
  else if shortcut = "this_week" then some (addDays (today_end now) (6 - weekday now))
  else if shortcut = "next_week" then some (addDays (today_end now) (6 - weekday now + 7))
  else none

/-- `TodoTools._resolve_due_shortcut`: ISO string for the four supported
shortcuts, `None` otherwise. -/
def resolve_due_shortcut (now : PyDateTime) (shortcut : String) : Option String :=
  if shortcut = "today" then some (isoformat (today_end now))
  else if shortcut = "tomorrow" then some (isoformat (addDays (today_end now) 1))
  else if shortcut = "this_week" then some (isoformat (addDays (today_end now) (6 - weekday now)))
  else if shortcut = "next_week" then
    some (isoformat (addDays (today_end now) (6 - weekday now + 7)))
  else none

/-- A JSON value as it appears in the request payloads built by the client. -/
inductive JVal where
  | s (v : String)
  | arr (v : List String)
  | null
deriving DecidableEq, Repr

/-- The JSON body `{"text": title, "dueDate": due_date, "tags": tags or []}`
of `TodoTools.create_todo`, with Python's `or` on the optional list (`None`
and `[]` are both falsy, giving `[]`). -/
def create_payload (title : String) (due_date : Option String)
    (tags : Option (List String)) : List (String × JVal) :=
  [("text", .s title),
   ("dueDate", match due_date with | some d => .s d | none => .null),
   ("tags", .arr (match tags with
     | some l => if l = [] then [] else l
     | none => []))]

/-- `TodoTools.create_todo`: POST the payload, raise on non-success, return
the parsed body.  The remote POST is an oracle from the payload sent to the
response received. -/
def create_todo (post : List (String × JVal) → HttpResponse Todo) (title : String)
    (due_date : Option String) (tags : Option (List String)) : Except Nat Todo :=
  raise_for_status (post (create_payload title due_date tags))

/-- The partial PATCH body of `TodoTools.update_todo`: starting from the
empty dict, each field is inserted only when the argument `is not None`. -/
def update_payload (title : Option String) (due_date : Option String)
    (tags : Option (List String)) : List (String × JVal) :=
  (match title with | some t => [("text", .s t)] | none => []) ++
  (match due_date with | some d => [("dueDate", .s d)] | none => []) ++
  (match tags with | some l => [("tags", .arr l)] | none => [])

/-- `TodoTools.update_todo`: PATCH `{base}/api/todos/{todo_id}` with the
partial payload, raise on non-success, return the parsed body.  The remote
PATCH is an oracle from (todo id, payload) to the response. -/
def update_todo (patch : String → List (String × JVal) → HttpResponse Todo)
    (todo_id : String) (title : Option String) (due_date : Option String)
    (tags : Option (List String)) : Except Nat Todo :=
  raise_for_status (patch todo_id (update_payload title due_date tags))

/-- `TodoTools.mark_completed`: POST the toggle endpoint; if the returned
todo has `completed == false`, POST it a second time.  The oracle maps
(todo id, zero-based call index) to the response of that toggle call.  The
result is paired with the number of toggle requests issued. -/
def mark_completed (toggle : String → Nat → HttpResponse Todo)
    (todo_id : String) : Except Nat Todo × Nat :=
  match raise_for_status (toggle todo_id 0) with
  | .error e => (.error e, 1)
  | .ok todo =>
    if todo.completed = false then
      match raise_for_status (toggle todo_id 1) with
      | .error e => (.error e, 2)
      | .ok todo2 => (.ok todo2, 2)
    else (.ok todo, 1)

/-- Boolean flipped `n` times. -/
def flipN : Nat → Bool → Bool
  | 0, b => b
  | n + 1, b => !(flipN n b)

/-- A faithful toggle server for a todo whose stored state starts as `t`:
the response to the `i`-th call (zero-based) has status 200 and carries the
record with `completed` flipped `i + 1` times, with no concurrent external
mutation. -/
def faithfulToggle (t : Todo) : Nat → HttpResponse Todo :=
  fun i => ⟨200, { t with completed := flipN (i + 1) t.completed }⟩

/-- The query parameters of a list (GET) request. -/
structure GetParams where
  dueBefore : Option String := none
  tags : Option String := none
deriving DecidableEq, Repr

/-- Python `x or y` for an optional string `x`: `y` unless `x` is a
non-`None`, non-empty string. -/
def pyOrStr (o : Option String) (dflt : String) : String :=
  match o with
  | some s => if s = "" then dflt else s
  | none => dflt

/-- The query parameters `TodoTools.get_todos` sends: `dueBefore` from the
shortcut resolver (falling back to the literal) when `due_date` is truthy,
`tags` when `tag` is truthy.  Python truthiness on strings: `None` and `""`
are falsy. -/
def get_todos_params (now : PyDateTime) (due_date : Option String)
    (tag : Option String) : GetParams :=
  { dueBefore :=
      match due_date with
      | some s => if s = "" then none else some (pyOrStr (resolve_due_shortcut now s) s)
      | none => none,
    tags :=
      match tag with
      | some s => if s = "" then none else some s
      | none => none }

/-- The client-side completion filter of `get_todos`: `completed is True`
keeps completed todos, `completed is False` keeps incomplete ones, anything
else (`None`) keeps the list as fetched. -/
def filterCompleted (completed : Option Bool) (todos : List Todo) : List Todo :=
  match completed with
  | some true => todos.filter (fun t => t.completed)
  | some false => todos.filter (fun t => !t.completed)
  | none => todos

/-- `TodoTools.get_todos`: GET with the built params, raise on non-success,
then filter client-side by completion status.  The remote GET is an oracle
from the params sent to the response received. -/
def get_todos (now : PyDateTime) (fetch : GetParams → HttpResponse (List Todo))
    (due_date : Option String) (tag : Option String) (completed : Option Bool) :
    Except Nat (List Todo) :=
  match raise_for_status (fetch (get_todos_params now due_date tag)) with
  | .error e => .error e
  | .ok todos => .ok (filterCompleted completed todos)

/-- `TodoTools.get_incomplete_todos`: GET with no query parameters, raise on
non-success, keep the todos with `completed == false`. -/
def get_incomplete_todos (fetch : GetParams → HttpResponse (List Todo)) :
    Except Nat (List Todo) :=
  match raise_for_status (fetch {}) with
  | .error e => .error e
  | .ok todos => .ok (todos.filter (fun t => !t.completed))

lemma isoformat_ne_empty (d : PyDateTime) : isoformat d ≠ "" := by
  intro h
  have hl := congrArg String.length h
  simp [isoformat, String.length_append] at hl
  exact absurd hl.1.2 (by decide)

lemma resolve_eq_map (now : PyDateTime) (s : String) :
    resolve_due_shortcut now s = (resolveDueDt now s).map isoformat := by
  simp only [resolve_due_shortcut, resolveDueDt]
  split <;> try rfl
  split <;> try rfl
  split <;> try rfl
  split <;> rfl

lemma resolve_some_ne_empty {now : PyDateTime} {s r : String}
    (h : resolve_due_shortcut now s = some r) : r ≠ "" := by
  rw [resolve_eq_map] at h
  rcases Option.map_eq_some'.mp h with ⟨d, _, hd⟩
  exact hd ▸ isoformat_ne_empty d

/-- C3: for every anchor time, the instant resolved for `next_week` is
exactly 7 days after the instant resolved for `this_week`, and the ISO
strings the resolver returns are the renderings of those two instants. -/
theorem next_week_seven_days_after_this_week (now : PyDateTime) :
    ∃ d : PyDateTime, resolveDueDt now "this_week" = some d ∧
      resolveDueDt now "next_week" = some (addDays d 7) ∧
      resolve_due_shortcut now "this_week" = some (isoformat d) ∧
      resolve_due_shortcut now "next_week" = some (isoformat (addDays d 7)) := by
  refine ⟨addDays (today_end now) (6 - weekday now), ?_, ?_, ?_, ?_⟩ <;>
    simp [resolveDueDt, resolve_due_shortcut, addDays, today_end, Nat.add_assoc]

/-- C5: for every anchor time, `this_week` resolves to second 86399
(23:59:59) of the upcoming Sunday: `6 - weekday` days after the anchor day's
end of day (Monday = 0 convention), a day of weekday Sunday at most 6 days
ahead, and the anchor day itself when the anchor is a Sunday. -/
theorem this_week_upcoming_sunday (now : PyDateTime) :
    ∃ d : PyDateTime, resolveDueDt now "this_week" = some d ∧
      resolve_due_shortcut now "this_week" = some (isoformat d) ∧
      d.sod = 86399 ∧ weekday d = 6 ∧
      d.day = now.day + (6 - weekday now) ∧
      now.day ≤ d.day ∧ d.day ≤ now.day + 6 ∧
      (weekday now = 6 → d.day = now.day) := by
  refine ⟨addDays (today_end now) (6 - weekday now), rfl, ?_, rfl, ?_, rfl, ?_, ?_, ?_⟩ <;>
    simp [resolve_due_shortcut, resolveDueDt, addDays, today_end, weekday] <;> omega

/-- C6: for every anchor time, `today` resolves to the instant with the
anchor's own date and second of day 86399, rendered as an ISO-8601 string
whose time component is exactly `23:59:59`. -/
theorem today_end_of_current_date (now : PyDateTime) :
    ∃ d : PyDateTime, resolveDueDt now "today" = some d ∧
      resolve_due_shortcut now "today" = some (isoformat d) ∧
      d.day = now.day ∧ d.sod = 86399 ∧
      isoformat d = dateStr now.day ++ "T" ++ "23:59:59" := by
  refine ⟨today_end now, rfl, rfl, rfl, rfl, ?_⟩
  show dateStr now.day ++ "T" ++ timeStr 86399 = _
  rw [show timeStr 86399 = "23:59:59" from by decide]

/-- C1: `mark_completed` issues one toggle call, and a second one exactly
when the todo returned by the first (successful) call has
`completed == false`; against a faithful toggle server with no concurrent
mutation it returns a todo with `completed == true` whether the item started
complete or incomplete, issuing two calls exactly when it started complete. -/
theorem mark_completed_double_toggle (t : Todo) (tid : String)
    (resps : String → Nat → HttpResponse Todo)
    (hok : is2xx (resps tid 0).status = true) :
    (∃ t2, (mark_completed (fun _ i => faithfulToggle t i) tid).1 = .ok t2 ∧
      t2.completed = true) ∧
    (mark_completed (fun _ i => faithfulToggle t i) tid).2 =
      (if t.completed then 2 else 1) ∧
    (1 ≤ (mark_completed resps tid).2 ∧ (mark_completed resps tid).2 ≤ 2) ∧
    ((mark_completed resps tid).2 = 2 ↔ (resps tid 0).body.completed = false) := by
  have h1 : raise_for_status (resps tid 0) = .ok (resps tid 0).body := by
    simp [raise_for_status, hok]
  refine ⟨?_, ?_, ?_, ?_⟩
  · rcases t with ⟨a, b, c, d, cp⟩
    cases cp <;> simp [mark_completed, faithfulToggle, raise_for_status, is2xx, flipN]
  · rcases t with ⟨a, b, c, d, cp⟩
    cases cp <;> simp [mark_completed, faithfulToggle, raise_for_status, is2xx, flipN]
  · simp only [mark_completed]
    rcases raise_for_status (resps tid 0) with e | todo
    · simp
    · rcases hc : todo.completed <;> simp [hc]
      rcases raise_for_status (resps tid 1) with e2 | t2 <;> simp
  · simp only [mark_completed, h1]
    rcases hc : (resps tid 0).body.completed <;> simp [hc]
    rcases raise_for_status (resps tid 1) with e2 | t2 <;> simp

/-- Witness for C1 at a concrete todo, id and response oracle. -/
theorem mark_completed_double_toggle_witness :
    is2xx ((fun (_ : String) (_ : Nat) =>
        HttpResponse.mk 200 (Todo.mk "1" "a" none [] true)) "1" 0).status = true ∧
    ((∃ t2, (mark_completed
        (fun _ i => faithfulToggle (Todo.mk "1" "a" none [] false) i) "1").1 = .ok t2 ∧
        t2.completed = true) ∧
      (mark_completed
        (fun _ i => faithfulToggle (Todo.mk "1" "a" none [] false) i) "1").2 =
        (if (Todo.mk "1" "a" none [] false).completed then 2 else 1) ∧
      (1 ≤ (mark_completed (fun _ _ =>
          HttpResponse.mk 200 (Todo.mk "1" "a" none [] true)) "1").2 ∧
        (mark_completed (fun _ _ =>
          HttpResponse.mk 200 (Todo.mk "1" "a" none [] true)) "1").2 ≤ 2) ∧
      ((mark_completed (fun _ _ =>
          HttpResponse.mk 200 (Todo.mk "1" "a" none [] true)) "1").2 = 2 ↔
        ((fun (_ : String) (_ : Nat) =>
          HttpResponse.mk 200 (Todo.mk "1" "a" none [] true)) "1" 0).body.completed
            = false)) :=
  ⟨by decide,
    mark_completed_double_toggle (Todo.mk "1" "a" none [] false) "1"
      (fun _ _ => HttpResponse.mk 200 (Todo.mk "1" "a" none [] true)) (by decide)⟩

/-- C2: on a fetched list, `get_todos` with `completed = some false` returns
exactly the todos whose `completed` is false, with `some true` exactly those
whose `completed` is true, and with `none` the fetched list unchanged. -/
theorem get_todos_completion_filter (now : PyDateTime) (todos : List Todo)
    (due tag : Option String) :
    (∃ res, get_todos now (fun _ => ⟨200, todos⟩) due tag (some false) = .ok res ∧
      ∀ t, t ∈ res ↔ t ∈ todos ∧ t.completed = false) ∧
    (∃ res, get_todos now (fun _ => ⟨200, todos⟩) due tag (some true) = .ok res ∧
      ∀ t, t ∈ res ↔ t ∈ todos ∧ t.completed = true) ∧
    get_todos now (fun _ => ⟨200, todos⟩) due tag none = .ok todos := by
  refine ⟨⟨todos.filter (fun t => !t.completed), ?_, ?_⟩,
    ⟨todos.filter (fun t => t.completed), ?_, ?_⟩, ?_⟩ <;>
    simp [get_todos, raise_for_status, is2xx, filterCompleted, List.mem_filter]

/-- C4: the resolver returns `none` exactly outside the four shortcut
tokens; for a truthy `due_date`, `get_todos` sends `dueBefore` equal to the
resolver's output when it resolves, and the literal `due_date` otherwise. -/
theorem due_date_param_resolution (now : PyDateTime) (s : String)
    (tag : Option String) (hs : s ≠ "") :
    (resolve_due_shortcut now s = none ↔
      s ≠ "today" ∧ s ≠ "tomorrow" ∧ s ≠ "this_week" ∧ s ≠ "next_week") ∧
    (∀ r, resolve_due_shortcut now s = some r →
      (get_todos_params now (some s) tag).dueBefore = some r) ∧
    (resolve_due_shortcut now s = none →
      (get_todos_params now (some s) tag).dueBefore = some s) := by
  refine ⟨?_, ?_, ?_⟩
  · simp only [resolve_due_shortcut]
    split_ifs with h1 h2 h3 h4 <;> simp_all
  · intro r hr
    have hr2 := resolve_some_ne_empty hr
    simp [get_todos_params, hs, pyOrStr, hr, hr2]
  · intro h0
    simp [get_todos_params, hs, pyOrStr, h0]

/-- Witness for C4 at a non-empty, non-shortcut due date. -/
theorem due_date_param_resolution_witness :
    ("2031-01-01" : String) ≠ "" ∧
    ((resolve_due_shortcut ⟨1, 0⟩ "2031-01-01" = none ↔
      ("2031-01-01" : String) ≠ "today" ∧ ("2031-01-01" : String) ≠ "tomorrow" ∧
      ("2031-01-01" : String) ≠ "this_week" ∧
      ("2031-01-01" : String) ≠ "next_week") ∧
    (∀ r, resolve_due_shortcut ⟨1, 0⟩ "2031-01-01" = some r →
      (get_todos_params ⟨1, 0⟩ (some "2031-01-01") none).dueBefore = some r) ∧
    (resolve_due_shortcut ⟨1, 0⟩ "2031-01-01" = none →
      (get_todos_params ⟨1, 0⟩ (some "2031-01-01") none).dueBefore =
        some "2031-01-01")) :=
  ⟨by decide, due_date_param_resolution ⟨1, 0⟩ "2031-01-01" none (by decide)⟩

/-- C7: the PATCH payload of `update_todo` holds exactly the supplied
optional fields — every entry comes from a supplied argument, every supplied
argument contributes its entry, and with nothing beyond the id supplied the
payload is the empty partial update. -/
theorem update_payload_exactly_supplied (title : Option String)
    (due_date : Option String) (tags : Option (List String)) :
    update_payload none none none = [] ∧
    (∀ k v, (k, v) ∈ update_payload title due_date tags →
      (k = "text" ∧ ∃ x, title = some x ∧ v = JVal.s x) ∨
      (k = "dueDate" ∧ ∃ x, due_date = some x ∧ v = JVal.s x) ∨
      (k = "tags" ∧ ∃ x, tags = some x ∧ v = JVal.arr x)) ∧
    (∀ x, title = some x → ("text", JVal.s x) ∈ update_payload title due_date tags) ∧
    (∀ x, due_date = some x →
      ("dueDate", JVal.s x) ∈ update_payload title due_date tags) ∧
    (∀ x, tags = some x → ("tags", JVal.arr x) ∈ update_payload title due_date tags) := by
  refine ⟨rfl, ?_, ?_, ?_, ?_⟩ <;>
    rcases title with _ | a <;> rcases due_date with _ | b <;> rcases tags with _ | c <;>
      simp [update_payload]

/-- C8: every operation surfaces a non-2xx response as that status error and
returns the parsed body on 2xx (filtered client-side where the operation
filters); `mark_completed`, over an arbitrary per-call response oracle,
propagates a non-2xx on either of its two toggle requests unchanged without
a retry of the failed request. -/
theorem errors_propagate_unchanged (s : Nat) (t : Todo) (todos : List Todo)
    (now : PyDateTime) (tid title : String) (due tag : Option String)
    (tg : Option (List String)) (c : Option Bool)
    (resps : String → Nat → HttpResponse Todo) :
    (is2xx s = false →
      create_todo (fun _ => ⟨s, t⟩) title due tg = .error s ∧
      update_todo (fun _ _ => ⟨s, t⟩) tid (some title) due tg = .error s ∧
      get_incomplete_todos (fun _ => ⟨s, todos⟩) = .error s ∧
      get_todos now (fun _ => ⟨s, todos⟩) due tag c = .error s) ∧
    (is2xx s = true →
      create_todo (fun _ => ⟨s, t⟩) title due tg = .ok t ∧
      update_todo (fun _ _ => ⟨s, t⟩) tid (some title) due tg = .ok t ∧
      get_incomplete_todos (fun _ => ⟨s, todos⟩) =
        .ok (todos.filter (fun x => !x.completed)) ∧
      get_todos now (fun _ => ⟨s, todos⟩) due tag c =
        .ok (filterCompleted c todos)) ∧
    (is2xx (resps tid 0).status = false →
      mark_completed resps tid = (.error (resps tid 0).status, 1)) ∧
    (is2xx (resps tid 0).status = true → (resps tid 0).body.completed = false →
      is2xx (resps tid 1).status = false →
      mark_completed resps tid = (.error (resps tid 1).status, 2)) ∧
    (is2xx (resps tid 0).status = true → (resps tid 0).body.completed = true →
      mark_completed resps tid = (.ok (resps tid 0).body, 1)) ∧
    (is2xx (resps tid 0).status = true → (resps tid 0).body.completed = false →
      is2xx (resps tid 1).status = true →
      mark_completed resps tid = (.ok (resps tid 1).body, 2)) := by
  refine ⟨fun h => ?_, fun h => ?_, fun h0 => ?_, fun h0 hc h1 => ?_,
    fun h0 hc => ?_, fun h0 hc h1 => ?_⟩
  · simp [create_todo, update_todo, get_incomplete_todos, get_todos,
      raise_for_status, h]
  · simp [create_todo, update_todo, get_incomplete_todos, get_todos,
      raise_for_status, h]
  · simp [mark_completed, raise_for_status, h0]
  · simp [mark_completed, raise_for_status, h0, h1, hc]
  · simp [mark_completed, raise_for_status, h0, hc]
  · simp [mark_completed, raise_for_status, h0, h1, hc]

/-- Witness for C8 at status 404 (error side) and status 200 (success side)
for the single-request operations, and at concrete two-call oracles for
`mark_completed` exercising a first-call failure, a second-call failure
(first call 2xx with `completed = false`, second 503), and both success
shapes. -/
theorem errors_propagate_unchanged_witness :
    (create_todo (fun _ => ⟨404, Todo.mk "1" "a" none [] false⟩) "a" none none
        = .error 404 ∧
      update_todo (fun _ _ => ⟨404, Todo.mk "1" "a" none [] false⟩) "1" (some "a")
        none none = .error 404 ∧
      get_incomplete_todos (fun _ => ⟨404, ([] : List Todo)⟩) = .error 404 ∧
      get_todos ⟨1, 0⟩ (fun _ => ⟨404, ([] : List Todo)⟩) none none none
        = .error 404) ∧
    (create_todo (fun _ => ⟨200, Todo.mk "1" "a" none [] false⟩) "a" none none
        = .ok (Todo.mk "1" "a" none [] false) ∧
      update_todo (fun _ _ => ⟨200, Todo.mk "1" "a" none [] false⟩) "1" (some "a")
        none none = .ok (Todo.mk "1" "a" none [] false) ∧
      get_incomplete_todos (fun _ => ⟨200, ([] : List Todo)⟩) =
        .ok (([] : List Todo).filter (fun x => !x.completed)) ∧
      get_todos ⟨1, 0⟩ (fun _ => ⟨200, ([] : List Todo)⟩) none none none =
        .ok (filterCompleted none [])) ∧
    mark_completed (fun _ _ => ⟨404, Todo.mk "1" "a" none [] false⟩) "1"
      = (.error 404, 1) ∧
    mark_completed (fun _ i => if i = 0 then ⟨200, Todo.mk "1" "a" none [] false⟩
      else ⟨503, Todo.mk "1" "a" none [] false⟩) "1" = (.error 503, 2) ∧
    mark_completed (fun _ _ => ⟨200, Todo.mk "1" "a" none [] true⟩) "1"
      = (.ok (Todo.mk "1" "a" none [] true), 1) ∧
    mark_completed (fun _ i => if i = 0 then ⟨200, Todo.mk "1" "a" none [] false⟩
      else ⟨200, Todo.mk "1" "a" none [] true⟩) "1"
      = (.ok (Todo.mk "1" "a" none [] true), 2) :=
  ⟨(errors_propagate_unchanged 404 (Todo.mk "1" "a" none [] false) [] ⟨1, 0⟩
      "1" "a" none none none none
      (fun _ _ => ⟨404, Todo.mk "1" "a" none [] false⟩)).1 (by decide),
    (errors_propagate_unchanged 200 (Todo.mk "1" "a" none [] false) [] ⟨1, 0⟩
      "1" "a" none none none none
      (fun _ _ => ⟨404, Todo.mk "1" "a" none [] false⟩)).2.1 (by decide),
    (errors_propagate_unchanged 404 (Todo.mk "1" "a" none [] false) [] ⟨1, 0⟩
      "1" "a" none none none none
      (fun _ _ => ⟨404, Todo.mk "1" "a" none [] false⟩)).2.2.1 (by decide),
    (errors_propagate_unchanged 404 (Todo.mk "1" "a" none [] false) [] ⟨1, 0⟩
      "1" "a" none none none none
      (fun _ i => if i = 0 then ⟨200, Todo.mk "1" "a" none [] false⟩
        else ⟨503, Todo.mk "1" "a" none [] false⟩)).2.2.2.1
      (by decide) (by decide) (by decide),
    (errors_propagate_unchanged 404 (Todo.mk "1" "a" none [] false) [] ⟨1, 0⟩
      "1" "a" none none none none
      (fun _ _ => ⟨200, Todo.mk "1" "a" none [] true⟩)).2.2.2.2.1
      (by decide) (by decide),
    (errors_propagate_unchanged 404 (Todo.mk "1" "a" none [] false) [] ⟨1, 0⟩
      "1" "a" none none none none
      (fun _ i => if i = 0 then ⟨200, Todo.mk "1" "a" none [] false⟩
        else ⟨200, Todo.mk "1" "a" none [] true⟩)).2.2.2.2.2
      (by decide) (by decide) (by decide)⟩

/-- C9: `get_incomplete_todos` coincides with `get_todos` at its default
arguments — both send a GET with no query parameters and keep exactly the
todos with `completed == false` in server order. -/
theorem get_incomplete_refines_get_todos (now : PyDateTime)
    (fetch : GetParams → HttpResponse (List Todo)) :
    get_incomplete_todos fetch = get_todos now fetch none none (some false) ∧
    get_todos_params now none none = {} := by
  constructor
  · simp only [get_incomplete_todos, get_todos]
    rcases h : raise_for_status (fetch (get_todos_params now none none)) with e | todos <;>
      simp [get_todos_params] at h <;> simp [get_todos_params, h, filterCompleted]
  · rfl

/-- C10: `get_todos` treats the empty string as an absent filter — with
`due_date = ""` no `dueBefore` parameter is sent, with `tag = ""` no `tags`
parameter is sent. -/
theorem empty_string_filters_absent (now : PyDateTime) (due tag : Option String) :
    (get_todos_params now (some "") tag).dueBefore = none ∧
    (get_todos_params now due (some "")).tags = none ∧
    get_todos_params now (some "") (some "") = {} := by
  refine ⟨?_, ?_, rfl⟩ <;> simp [get_todos_params]

end MdtAgent
